import Mathlib

/-!
Shallow embedding of src/frontend/src/hello-tokens.ts (repository
cyio/hello-overlay) and verification of its specified properties.

The module is a thin orchestration layer: all cryptography, transaction
construction, signing and broadcasting are delegated to the external
wallet / SDK library.  Those external capabilities are modelled as an
environment record of response values and opaque functions, and each
operation is embedded as a pure function that returns both the ordered
trace of external calls it performed and its outcome (a result value or
the thrown error).  JavaScript exceptions are embedded as the error side
of an Except; JavaScript truthiness on strings is non-emptiness; the
optional beef bundle is an Option.
-/

/- ## Byte-level helpers (hex serialization, as Script.toHex) -/

def hexDigitChar (n : Nat) : Char :=
  if n < 10 then Char.ofNat (48 + n) else Char.ofNat (87 + n)

def byteToHex (b : Nat) : List Char :=
  [hexDigitChar (b / 16 % 16), hexDigitChar (b % 16)]

def bytesToHex (bs : List Nat) : String :=
  ⟨(bs.map byteToHex).flatten⟩

/- ## JavaScript string trim (String.prototype.trim): strips WhiteSpace
and LineTerminator code points from both ends. -/

def isJsSpace (c : Char) : Bool :=
  c = ' ' || c = '\t' || c = '\n' || c = '\r' ||
  c.toNat = 11 || c.toNat = 12 ||
  c.toNat = 0xA0 || c.toNat = 0x1680 ||
  (0x2000 ≤ c.toNat && c.toNat ≤ 0x200A) ||
  c.toNat = 0x2028 || c.toNat = 0x2029 ||
  c.toNat = 0x202F || c.toNat = 0x205F ||
  c.toNat = 0x3000 || c.toNat = 0xFEFF

def jsTrim (s : String) : String :=
  ⟨(((s.data.dropWhile isJsSpace).reverse.dropWhile isJsSpace).reverse)⟩

/- ## Constants from the source -/

def DEFAULT_TOPIC : String := "tm_helloworld_bitspv"

def PROTOCOL : Nat × String := (1, "HelloWorld")

def KEY_ID : String := "1"

/- ## Data model: HelloWorldToken

`beef` is the optional ancestry-proof bundle (BEEF = number[]).
`satoshis` is Option because parseLookupAnswer reads it through a
non-null assertion and can propagate an absent value at runtime. -/

structure TokenRef where
  txid : String
  outputIndex : Nat
  lockingScript : String
  satoshis : Option Nat
  beef : Option (List Nat)
deriving DecidableEq, Repr

structure HelloWorldToken where
  message : String
  token : TokenRef
deriving DecidableEq, Repr

/- ## Errors thrown by the module

missingProof: "Token must contain tx BEEF to be updated".
signingError: "Unable to redeem token!" (both the missing
signableTransaction and the missing final tx cases).
constructionError: "Failed to create transaction" (createToken).
typeError: a generic JavaScript TypeError, e.g. Beef.fromBinary applied
to an undefined bundle. -/

inductive Err where
  | missingProof
  | signingError
  | constructionError
  | typeError
deriving DecidableEq, Repr

inductive Network where
  | mainnet
  | testnet
deriving DecidableEq, Repr

/- ## Wallet action arguments, as assembled by the source -/

structure InputSpec where
  outpoint : String
  unlockingScriptLength : Nat
  inputDescription : String
deriving DecidableEq, Repr

structure OutputSpec where
  satoshis : Nat
  lockingScript : String
  outputDescription : String
deriving DecidableEq, Repr

structure CreateActionArgs where
  description : String
  inputBEEF : Option (List Nat)
  inputs : List InputSpec
  outputs : List OutputSpec
deriving DecidableEq, Repr

structure SignActionArgs where
  reference : String
  unlockingScriptHex : String
deriving DecidableEq, Repr

/- A signable (not yet finalized) transaction returned by createAction. -/

structure SignableTx where
  tx : List Nat
  reference : String
deriving DecidableEq, Repr

/- createAction may return a finalized atomic-BEEF transaction, a
signable transaction, both or neither; the source destructures the field
it needs. -/

structure CreateActionResult where
  tx : Option (List Nat)
  signableTransaction : Option SignableTx
deriving DecidableEq, Repr

/- ## Trace of external calls

Each constructor is one awaited call on the wallet, the PushDrop
lock/unlock capability, or the broadcaster, with the arguments the
source passes. -/

inductive Event where
  | pushDropLock (message : String)
  | createAction (args : CreateActionArgs)
  | unlockSign (txBeef : List Nat) (inputIndex : Nat)
  | signAction (args : SignActionArgs)
  | getNetwork
  | broadcast (topics : List String) (preset : Network) (txAtomic : List Nat)
deriving DecidableEq, Repr

def Event.isBroadcastCall : Event → Bool
  | .broadcast _ _ _ => true
  | _ => false

/- ## The external environment

One call of each kind happens per operation, so the responses of the
external collaborators are modelled as fixed values / functions:
`createActionResult` is what wallet.createAction resolves to,
`signActionResult` the tx field of wallet.signAction, `network` the
wallet network, `pushDropLockScript` the PushDrop lock script built for
a message (protocol, key id and the anyone policy are the fixed
constants), `unlockSignScript` the unlocking script produced by
unlocker.sign for a given signable tx and input index, and
`broadcastResult` the broadcaster success/failure value. -/

structure Env where
  createActionResult : CreateActionResult
  signActionResult : Option (List Nat)
  network : Network
  pushDropLockScript : String → List Nat
  unlockSignScript : List Nat → Nat → List Nat
  broadcastResult : Bool

/- ## updateToken (hello-tokens.ts lines 65 to 123)

The beef guard comes first; Beef.fromBinary / toBinary on a well-formed
present bundle is abstracted as the identity round trip. -/

def updateToken (w : Env) (prevToken : HelloWorldToken) (newMessage : String) :
    List Event × Except Err Bool :=
  match prevToken.token.beef with
  | none => ([], .error .missingProof)
  | some beefBytes =>
    let newLocking := w.pushDropLockScript newMessage
    let prevOutpoint := prevToken.token.txid ++ "." ++ toString prevToken.token.outputIndex
    let args : CreateActionArgs :=
      { description := "Update HelloWorld token"
      , inputBEEF := some beefBytes
      , inputs := [{ outpoint := prevOutpoint
                   , unlockingScriptLength := 74
                   , inputDescription := "Spend previous HelloWorld token" }]
      , outputs := [{ satoshis := 1
                    , lockingScript := bytesToHex newLocking
                    , outputDescription := "Updated HelloWorld Token" }] }
    match w.createActionResult.signableTransaction with
    | none =>
      ([.pushDropLock newMessage, .createAction args], .error .signingError)
    | some st =>
      let unlockingScript := w.unlockSignScript st.tx 0
      let sargs : SignActionArgs :=
        { reference := st.reference, unlockingScriptHex := bytesToHex unlockingScript }
      match w.signActionResult with
      | none =>
        ([.pushDropLock newMessage, .createAction args, .unlockSign st.tx 0,
          .signAction sargs], .error .signingError)
      | some tx =>
        ([.pushDropLock newMessage, .createAction args, .unlockSign st.tx 0,
          .signAction sargs, .getNetwork,
          .broadcast [DEFAULT_TOPIC] w.network tx], .ok w.broadcastResult)

/- ## redeemToken (hello-tokens.ts lines 131 to 165)

There is no beef guard: the source force-casts token.token.beef and
Beef.fromBinary of an undefined bundle throws a TypeError before the
wallet is called. -/

def redeemToken (w : Env) (token : HelloWorldToken) :
    List Event × Except Err Bool :=
  match token.token.beef with
  | none => ([], .error .typeError)
  | some beefBytes =>
    let prevOutpoint := token.token.txid ++ "." ++ toString token.token.outputIndex
    let args : CreateActionArgs :=
      { description := "Redeem HelloWorld token"
      , inputBEEF := some beefBytes
      , inputs := [{ outpoint := prevOutpoint
                   , unlockingScriptLength := 74
                   , inputDescription := "Spend previous HelloWorld token" }]
      , outputs := [] }
    match w.createActionResult.signableTransaction with
    | none =>
      ([.createAction args], .error .signingError)
    | some st =>
      let unlockingScript := w.unlockSignScript st.tx 0
      let sargs : SignActionArgs :=
        { reference := st.reference, unlockingScriptHex := bytesToHex unlockingScript }
      match w.signActionResult with
      | none =>
        ([.createAction args, .unlockSign st.tx 0, .signAction sargs],
         .error .signingError)
      | some tx =>
        ([.createAction args, .unlockSign st.tx 0, .signAction sargs, .getNetwork,
          .broadcast [DEFAULT_TOPIC] w.network tx], .ok w.broadcastResult)

/- ## Query model (queryTokens, hello-tokens.ts lines 175 to 212)

The resolver round trip is external; the embedding names the request the
source assembles: the service name, the query object, the timeout and
the resolver choice.  An Option field of the query object being none
means the key is omitted from the object. -/

inductive SortOrder where
  | asc
  | desc
deriving DecidableEq, Repr

structure QueryParams where
  limit : Nat
  skip : Option Nat := none
  sortOrder : Option SortOrder := none
  message : Option String := none
  startDate : Option String := none
  endDate : Option String := none
deriving DecidableEq, Repr

inductive ResolverSpec where
  | custom (id : Nat)
  | standard (preset : Network)
deriving DecidableEq, Repr

structure QueryOpts where
  resolver : Option ResolverSpec := none
  network : Option Network := none
  timeout : Option Nat := none
  includeBeef : Option Bool := none
deriving DecidableEq, Repr

structure LookupQuery where
  limit : Nat
  skip : Nat
  sortOrder : SortOrder
  message : Option String
  startDate : Option String
  endDate : Option String
deriving DecidableEq, Repr

structure LookupRequest where
  service : String
  query : LookupQuery
  timeout : Nat
  resolver : ResolverSpec
deriving DecidableEq, Repr

def queryTokensRequest (params : QueryParams) (opts : QueryOpts) : LookupRequest :=
  { service := "ls_helloworld_bitspv"
  , query :=
      { limit := params.limit
      , skip := params.skip.getD 0
      , sortOrder := params.sortOrder.getD .desc
      , message :=
          match params.message with
          | none => none
          | some m => if jsTrim m ≠ "" then some (jsTrim m) else none
      , startDate :=
          match params.startDate with
          | none => none
          | some s => if s ≠ "" then some (s ++ "T00:00:00.000Z") else none
      , endDate :=
          match params.endDate with
          | none => none
          | some s => if s ≠ "" then some (s ++ "T23:59:59.999Z") else none }
  , timeout := opts.timeout.getD 10000
  , resolver := opts.resolver.getD (.standard (opts.network.getD .mainnet)) }

/- ## Lookup answers and their decoding (parseLookupAnswer, lines 256 to 274) -/

structure LookupOutput where
  beef : List Nat
  outputIndex : Nat
deriving DecidableEq, Repr

structure LookupAnswer where
  type : String
  outputs : List LookupOutput
deriving DecidableEq, Repr

structure TxOut where
  lockingScript : List Nat
  satoshis : Option Nat
deriving DecidableEq, Repr

structure Tx where
  idHex : String
  outputs : List TxOut
deriving DecidableEq, Repr

/- External SDK decoding capabilities: Transaction.fromBEEF,
PushDrop.decode (only its fields component is read) and Utils.toUTF8. -/

structure SDK where
  fromBEEF : List Nat → Tx
  decodeFields : List Nat → List (List Nat)
  toUTF8 : List Nat → String

/- JavaScript Array.map with a callback that can throw is a sequential
map that stops at the first thrown error. -/

def mapEx {α β ε : Type} (f : α → Except ε β) : List α → Except ε (List β)
  | [] => .ok []
  | x :: xs =>
    match f x with
    | .error e => .error e
    | .ok y =>
      match mapEx f xs with
      | .error e => .error e
      | .ok ys => .ok (y :: ys)

/- One output of an output-list answer: out-of-range outputIndex or an
empty push-drop field list makes the original throw a TypeError while
dereferencing undefined. -/

def parseOutput (sdk : SDK) (includeBeef : Option Bool) (o : LookupOutput) :
    Except Err HelloWorldToken :=
  match (sdk.fromBEEF o.beef).outputs[o.outputIndex]? with
  | none => .error .typeError
  | some out =>
    match (sdk.decodeFields out.lockingScript)[0]? with
    | none => .error .typeError
    | some f0 =>
      .ok { message := sdk.toUTF8 f0
          , token := { txid := (sdk.fromBEEF o.beef).idHex
                     , outputIndex := o.outputIndex
                     , lockingScript := bytesToHex out.lockingScript
                     , satoshis := out.satoshis
                     , beef := if includeBeef.getD false then some o.beef else none } }

def parseLookupAnswer (sdk : SDK) (lookupAnswer : LookupAnswer)
    (includeBeef : Option Bool) : Except Err (List HelloWorldToken) :=
  if lookupAnswer.type != "output-list" || lookupAnswer.outputs.isEmpty then .ok []
  else mapEx (parseOutput sdk includeBeef) lookupAnswer.outputs

/- ## Full query pipeline and the message accessor (lines 175 to 248) -/

def queryTokens (sdk : SDK) (resolve : LookupRequest → LookupAnswer)
    (params : QueryParams) (opts : QueryOpts) : Except Err (List HelloWorldToken) :=
  parseLookupAnswer sdk (resolve (queryTokensRequest params opts)) opts.includeBeef

structure FindOpts extends QueryOpts where
  limit : Option Nat := none
deriving DecidableEq, Repr

def findTokenByMessageParams (message : String) (opts : FindOpts) : QueryParams :=
  { limit := opts.limit.getD 100
  , message := some message
  , sortOrder := some .desc }

def findTokenByMessageRequest (message : String) (opts : FindOpts) : LookupRequest :=
  queryTokensRequest (findTokenByMessageParams message opts) opts.toQueryOpts

def findTokenByMessage (sdk : SDK) (resolve : LookupRequest → LookupAnswer)
    (message : String) (opts : FindOpts) : Except Err (List HelloWorldToken) :=
  queryTokens sdk resolve (findTokenByMessageParams message opts) opts.toQueryOpts

/- ## Concrete instances used to exercise the definitions -/

def env0 : Env :=
  { createActionResult := { tx := none, signableTransaction := none }
  , signActionResult := none
  , network := .mainnet
  , pushDropLockScript := fun _ => []
  , unlockSignScript := fun _ _ => []
  , broadcastResult := true }

def envFinalTx : Env :=
  { createActionResult := { tx := some [9], signableTransaction := none }
  , signActionResult := some [9]
  , network := .mainnet
  , pushDropLockScript := fun _ => [5]
  , unlockSignScript := fun _ _ => [6]
  , broadcastResult := true }

def envSignable : Env :=
  { createActionResult :=
      { tx := none, signableTransaction := some { tx := [3], reference := "r" } }
  , signActionResult := none
  , network := .mainnet
  , pushDropLockScript := fun _ => [5]
  , unlockSignScript := fun _ _ => [6]
  , broadcastResult := true }

def tokNoBeef : HelloWorldToken :=
  { message := "hi"
  , token := { txid := "aa", outputIndex := 0, lockingScript := "00"
             , satoshis := some 1, beef := none } }

def tokWithBeef : HelloWorldToken :=
  { message := "hi"
  , token := { txid := "aa", outputIndex := 0, lockingScript := "00"
             , satoshis := some 1, beef := some [1, 2] } }

def sdk0 : SDK :=
  { fromBEEF := fun _ =>
      { idHex := "cafe", outputs := [{ lockingScript := [0], satoshis := some 1 }] }
  , decodeFields := fun s => [s]
  , toUTF8 := fun _ => "hello" }

def ans0 : LookupAnswer := { type := "output-list", outputs := [{ beef := [7], outputIndex := 0 }] }

def tok0 : HelloWorldToken :=
  { message := "hello"
  , token := { txid := "cafe", outputIndex := 0, lockingScript := bytesToHex [0]
             , satoshis := some 1, beef := none } }

def tokB : HelloWorldToken :=
  { message := "hello"
  , token := { txid := "cafe", outputIndex := 0, lockingScript := bytesToHex [0]
             , satoshis := some 1, beef := some [7] } }

def qopts0 : QueryOpts := {}

def fopts0 : FindOpts := {}

def dateParams : QueryParams :=
  { limit := 5, startDate := some "2024-01-01", endDate := some "2024-01-01" }

/- ## Helper lemmas about mapEx -/

theorem mapEx_ok_mem {α β ε : Type} (f : α → Except ε β) :
    ∀ (xs : List α) (ys : List β), mapEx f xs = Except.ok ys →
      ∀ y ∈ ys, ∃ x ∈ xs, f x = Except.ok y := by
  intro xs
  induction xs with
  | nil =>
    intro ys h y hy
    simp only [mapEx] at h
    injection h with h2
    subst h2
    cases hy
  | cons x xs ih =>
    intro ys h y hy
    simp only [mapEx] at h
    split at h
    · cases h
    · rename_i y0 hfx
      split at h
      · cases h
      · rename_i ys0 hrec
        injection h with h2
        subst h2
        rcases List.mem_cons.mp hy with rfl | hy2
        · exact ⟨x, List.mem_cons_self x xs, hfx⟩
        · obtain ⟨x1, hx1, hfx1⟩ := ih ys0 hrec y hy2
          exact ⟨x1, List.mem_cons_of_mem x hx1, hfx1⟩

theorem mapEx_ok_getElem {α β ε : Type} (f : α → Except ε β) :
    ∀ (xs : List α) (ys : List β), mapEx f xs = Except.ok ys →
      ∀ (i : Nat) (y : β), ys[i]? = some y →
        ∃ x, xs[i]? = some x ∧ f x = Except.ok y := by
  intro xs
  induction xs with
  | nil =>
    intro ys h i y hy
    simp only [mapEx] at h
    injection h with h2
    subst h2
    simp at hy
  | cons x xs ih =>
    intro ys h i y hy
    simp only [mapEx] at h
    split at h
    · cases h
    · rename_i y0 hfx
      split at h
      · cases h
      · rename_i ys0 hrec
        injection h with h2
        subst h2
        cases i with
        | zero =>
          simp only [List.getElem?_cons_zero, Option.some.injEq] at hy
          subst hy
          exact ⟨x, by simp, hfx⟩
        | succ n =>
          simp only [List.getElem?_cons_succ] at hy
          obtain ⟨x1, hx1, hfx1⟩ := ih ys0 hrec n y hy
          exact ⟨x1, by simpa using hx1, hfx1⟩

/- Characterization of a successful parseOutput. -/

theorem parseOutput_ok (sdk : SDK) (inc : Option Bool) (o : LookupOutput)
    (t : HelloWorldToken) (h : parseOutput sdk inc o = Except.ok t) :
    ∃ out f0,
      (sdk.fromBEEF o.beef).outputs[o.outputIndex]? = some out ∧
      (sdk.decodeFields out.lockingScript)[0]? = some f0 ∧
      t = { message := sdk.toUTF8 f0
          , token := { txid := (sdk.fromBEEF o.beef).idHex
                     , outputIndex := o.outputIndex
                     , lockingScript := bytesToHex out.lockingScript
                     , satoshis := out.satoshis
                     , beef := if inc.getD false then some o.beef else none } } := by
  unfold parseOutput at h
  cases hq : (sdk.fromBEEF o.beef).outputs[o.outputIndex]? with
  | none => rw [hq] at h; cases h
  | some out =>
    rw [hq] at h
    dsimp only at h
    cases hf : (sdk.decodeFields out.lockingScript)[0]? with
    | none => rw [hf] at h; cases h
    | some f0 =>
      rw [hf] at h
      dsimp only at h
      injection h with h2
      exact ⟨out, f0, rfl, hf, h2.symm⟩

/- ## Claim theorems -/

/-- Claim C3: every lookup answer whose type is not output-list, and every
output-list answer with an empty outputs array, decodes to the empty token
array without raising an error. -/
theorem parseLookupAnswer_empty_or_other (sdk : SDK) (inc : Option Bool)
    (ans : LookupAnswer) (h : ans.type ≠ "output-list" ∨ ans.outputs = []) :
    parseLookupAnswer sdk ans inc = Except.ok [] := by
  unfold parseLookupAnswer
  rcases h with h | h
  · simp [bne_iff_ne, h]
  · simp [h]

/-- Witness for claim C3 at a concrete freeform answer and at a concrete
empty output list. -/
theorem parseLookupAnswer_empty_or_other_witness :
    parseLookupAnswer sdk0 { type := "freeform", outputs := [] } none = Except.ok [] ∧
    parseLookupAnswer sdk0 { type := "output-list", outputs := [] } (some true) = Except.ok [] :=
  ⟨parseLookupAnswer_empty_or_other sdk0 none { type := "freeform", outputs := [] }
      (Or.inl (by decide)),
   parseLookupAnswer_empty_or_other sdk0 (some true) { type := "output-list", outputs := [] }
      (Or.inr rfl)⟩

/-- Claim C7: every token produced by parseLookupAnswer takes its message
from the UTF-8 decoding of the first push-drop data field of the very
locking script whose hex serialization is stored in the token. -/
theorem parseLookupAnswer_message_from_script (sdk : SDK) (ans : LookupAnswer)
    (inc : Option Bool) (toks : List HelloWorldToken)
    (h : parseLookupAnswer sdk ans inc = Except.ok toks) :
    ∀ t ∈ toks, ∃ script f0,
      (sdk.decodeFields script)[0]? = some f0 ∧
      t.message = sdk.toUTF8 f0 ∧
      t.token.lockingScript = bytesToHex script := by
  intro t ht
  unfold parseLookupAnswer at h
  split at h
  · injection h with h2
    subst h2
    cases ht
  · obtain ⟨o, _, hpo⟩ := mapEx_ok_mem _ _ _ h t ht
    obtain ⟨out, f0, _, hf0, ht2⟩ := parseOutput_ok sdk inc o t hpo
    subst ht2
    exact ⟨out.lockingScript, f0, hf0, rfl, rfl⟩

/-- Witness for claim C7 at a concrete one-output answer. -/
theorem parseLookupAnswer_message_from_script_witness :
    ∃ script f0,
      (sdk0.decodeFields script)[0]? = some f0 ∧
      tok0.message = sdk0.toUTF8 f0 ∧
      tok0.token.lockingScript = bytesToHex script :=
  parseLookupAnswer_message_from_script sdk0 ans0 none [tok0] (by rfl) tok0 (by simp)

/-- Claim C8: a token decoded from an output-list answer carries the beef
bundle of its output exactly when the caller passed includeBeef as true,
and carries no beef field otherwise. -/
theorem parseLookupAnswer_beef_iff_includeBeef (sdk : SDK) (ans : LookupAnswer)
    (inc : Option Bool) (toks : List HelloWorldToken)
    (h : parseLookupAnswer sdk ans inc = Except.ok toks) (i : Nat)
    (t : HelloWorldToken) (o : LookupOutput)
    (ht : toks[i]? = some t) (ho : ans.outputs[i]? = some o) :
    t.token.beef = if inc.getD false then some o.beef else none := by
  unfold parseLookupAnswer at h
  split at h
  · injection h with h2
    subst h2
    simp at ht
  · obtain ⟨x, hx, hfx⟩ := mapEx_ok_getElem _ _ _ h i t ht
    rw [ho] at hx
    injection hx with hx2
    subst hx2
    obtain ⟨out, f0, _, _, ht2⟩ := parseOutput_ok sdk inc o t hfx
    subst ht2
    rfl

/-- Witness for claim C8 with includeBeef set to true at a concrete
one-output answer. -/
theorem parseLookupAnswer_beef_iff_includeBeef_witness :
    tokB.token.beef =
      if (some true : Option Bool).getD false
      then some (LookupOutput.mk [7] 0).beef else none :=
  parseLookupAnswer_beef_iff_includeBeef sdk0 ans0 (some true) [tokB] (by rfl) 0 tokB
    (LookupOutput.mk [7] 0) (by rfl) (by rfl)

/-- Claim C4: a supplied calendar-date startDate is expanded to the full-day
lower bound by appending T00:00:00.000Z, a supplied endDate to the full-day
upper bound by appending T23:59:59.999Z, and an absent date parameter leaves
the corresponding key out of the resolver query. -/
theorem queryTokens_date_bounds (params : QueryParams) (opts : QueryOpts) :
    (∀ s, params.startDate = some s → s ≠ "" →
        (queryTokensRequest params opts).query.startDate = some (s ++ "T00:00:00.000Z")) ∧
    (params.startDate = none →
        (queryTokensRequest params opts).query.startDate = none) ∧
    (∀ s, params.endDate = some s → s ≠ "" →
        (queryTokensRequest params opts).query.endDate = some (s ++ "T23:59:59.999Z")) ∧
    (params.endDate = none →
        (queryTokensRequest params opts).query.endDate = none) := by
  refine ⟨?_, ?_, ?_, ?_⟩ <;> intros <;> simp_all [queryTokensRequest]

/-- Witness for claim C4 at the date 2024-01-01 on both bounds. -/
theorem queryTokens_date_bounds_witness :
    (queryTokensRequest dateParams qopts0).query.startDate =
        some ("2024-01-01" ++ "T00:00:00.000Z") ∧
    (queryTokensRequest dateParams qopts0).query.endDate =
        some ("2024-01-01" ++ "T23:59:59.999Z") :=
  ⟨(queryTokens_date_bounds dateParams qopts0).1 "2024-01-01" rfl (by decide),
   (queryTokens_date_bounds dateParams qopts0).2.2.1 "2024-01-01" rfl (by decide)⟩

/-- Claim C5: an absent, empty or whitespace-only message parameter leaves
the message key out of the resolver query; a message that is non-empty
after trimming is sent trimmed. -/
theorem queryTokens_message_trim (params : QueryParams) (opts : QueryOpts) :
    (params.message = none →
        (queryTokensRequest params opts).query.message = none) ∧
    (∀ m, params.message = some m → jsTrim m = "" →
        (queryTokensRequest params opts).query.message = none) ∧
    (∀ m, params.message = some m → jsTrim m ≠ "" →
        (queryTokensRequest params opts).query.message = some (jsTrim m)) := by
  refine ⟨?_, ?_, ?_⟩ <;> intros <;> simp_all [queryTokensRequest]

/-- Witness for claim C5: a whitespace-only message is dropped and a padded
message is sent trimmed. -/
theorem queryTokens_message_trim_witness :
    (queryTokensRequest { limit := 1, message := some "   " } qopts0).query.message = none ∧
    (queryTokensRequest { limit := 1, message := some " hi " } qopts0).query.message =
        some (jsTrim " hi ") :=
  ⟨(queryTokens_message_trim { limit := 1, message := some "   " } qopts0).2.1
      "   " rfl (by decide),
   (queryTokens_message_trim { limit := 1, message := some " hi " } qopts0).2.2
      " hi " rfl (by decide)⟩

/-- Claim C6: findTokenByMessage delegates to the generic query with the
message filter pre-populated, sort order desc, and a limit of 100 unless an
explicit limit is supplied, in which case that limit is used. -/
theorem findTokenByMessage_delegates (m : String) (opts : FindOpts) :
    findTokenByMessageRequest m opts =
      queryTokensRequest
        { limit := opts.limit.getD 100, message := some m, sortOrder := some .desc }
        opts.toQueryOpts ∧
    (findTokenByMessageRequest m opts).query.sortOrder = SortOrder.desc ∧
    (opts.limit = none → (findTokenByMessageRequest m opts).query.limit = 100) ∧
    (∀ n, opts.limit = some n → (findTokenByMessageRequest m opts).query.limit = n) := by
  refine ⟨rfl, rfl, ?_, ?_⟩ <;> intros <;>
    simp_all [findTokenByMessageRequest, findTokenByMessageParams, queryTokensRequest]

/-- Witness for claim C6 with no explicit limit. -/
theorem findTokenByMessage_delegates_witness :
    (findTokenByMessageRequest "X" fopts0).query.limit = 100 ∧
    (findTokenByMessageRequest "X" fopts0).query.sortOrder = SortOrder.desc :=
  ⟨(findTokenByMessage_delegates "X" fopts0).2.2.1 rfl,
   (findTokenByMessage_delegates "X" fopts0).2.1⟩

/-- Claim C9: omitted optional parameters default to skip 0, sort order
desc, a standard resolver on the requested network with network defaulting
to mainnet, and a timeout of 10000; the query is always addressed to the
service ls_helloworld_bitspv. -/
theorem queryTokens_defaults (params : QueryParams) (opts : QueryOpts) :
    (queryTokensRequest params opts).service = "ls_helloworld_bitspv" ∧
    (params.skip = none → (queryTokensRequest params opts).query.skip = 0) ∧
    (params.sortOrder = none →
        (queryTokensRequest params opts).query.sortOrder = SortOrder.desc) ∧
    (opts.timeout = none → (queryTokensRequest params opts).timeout = 10000) ∧
    (opts.resolver = none → opts.network = none →
        (queryTokensRequest params opts).resolver =
          ResolverSpec.standard Network.mainnet) ∧
    (∀ n, opts.resolver = none → opts.network = some n →
        (queryTokensRequest params opts).resolver = ResolverSpec.standard n) := by
  refine ⟨rfl, ?_, ?_, ?_, ?_, ?_⟩ <;> intros <;> simp_all [queryTokensRequest]

/-- Witness for claim C9 with every optional parameter omitted. -/
theorem queryTokens_defaults_witness :
    (queryTokensRequest { limit := 3 } qopts0).service = "ls_helloworld_bitspv" ∧
    (queryTokensRequest { limit := 3 } qopts0).query.skip = 0 ∧
    (queryTokensRequest { limit := 3 } qopts0).query.sortOrder = SortOrder.desc ∧
    (queryTokensRequest { limit := 3 } qopts0).timeout = 10000 ∧
    (queryTokensRequest { limit := 3 } qopts0).resolver =
      ResolverSpec.standard Network.mainnet :=
  ⟨(queryTokens_defaults { limit := 3 } qopts0).1,
   (queryTokens_defaults { limit := 3 } qopts0).2.1 rfl,
   (queryTokens_defaults { limit := 3 } qopts0).2.2.1 rfl,
   (queryTokens_defaults { limit := 3 } qopts0).2.2.2.1 rfl,
   (queryTokens_defaults { limit := 3 } qopts0).2.2.2.2.1 rfl rfl⟩

/-- Claim C10: findTokenByMessage on an empty or whitespace-only message
issues a query whose message key is dropped by the trim check, while the
limit is still the default 100 or the explicit limit, so the query matches
arbitrary tokens rather than tokens with an empty message. -/
theorem findTokenByMessage_blank_message_no_filter (m : String) (opts : FindOpts)
    (h : jsTrim m = "") :
    (findTokenByMessageRequest m opts).query.message = none ∧
    (findTokenByMessageRequest m opts).query.limit = opts.limit.getD 100 := by
  refine ⟨?_, rfl⟩
  simp [findTokenByMessageRequest, findTokenByMessageParams, queryTokensRequest, h]

/-- Witness for claim C10 at a whitespace-only message. -/
theorem findTokenByMessage_blank_message_no_filter_witness :
    (findTokenByMessageRequest " " fopts0).query.message = none ∧
    (findTokenByMessageRequest " " fopts0).query.limit = 100 :=
  findTokenByMessage_blank_message_no_filter " " fopts0 (by decide)

/-- Claim C1, counterexample: redeemToken on a token without a beef bundle
does fail before any wallet call, but with a generic deserialization
TypeError, not with MissingProofError, because redeemToken has no
proof-presence guard. -/
theorem redeemToken_missing_beef_not_missingProof :
    tokNoBeef.token.beef = none ∧
    (redeemToken env0 tokNoBeef).2 ≠ Except.error Err.missingProof := by
  refine ⟨rfl, ?_⟩
  intro hc
  have h2 : Err.typeError = Err.missingProof := Except.error.inj hc
  cases h2

/-- Claim C1 as amended: for every token without a beef bundle, updateToken
fails with MissingProofError before any wallet, signing or broadcast call,
and redeemToken also fails before any such call, but with a generic
TypeError from deserializing the absent bundle instead of
MissingProofError. -/
theorem missing_beef_fails_before_wallet (w : Env) (tok : HelloWorldToken)
    (msg : String) (h : tok.token.beef = none) :
    updateToken w tok msg = ([], Except.error Err.missingProof) ∧
    redeemToken w tok = ([], Except.error Err.typeError) := by
  refine ⟨?_, ?_⟩
  · unfold updateToken
    rw [h]
  · unfold redeemToken
    rw [h]

/-- Witness for the amended claim C1 at a concrete proofless token. -/
theorem missing_beef_fails_before_wallet_witness :
    tokNoBeef.token.beef = none ∧
    updateToken env0 tokNoBeef "m" = ([], Except.error Err.missingProof) ∧
    redeemToken env0 tokNoBeef = ([], Except.error Err.typeError) :=
  ⟨rfl, (missing_beef_fails_before_wallet env0 tokNoBeef "m" rfl).1,
        (missing_beef_fails_before_wallet env0 tokNoBeef "m" rfl).2⟩

/-- Claim C2, counterexample: when the wallet returns a finalized
transaction directly (tx present, signableTransaction absent), updateToken
does not proceed to broadcast; it throws the SigningError and never emits a
broadcast call. -/
theorem updateToken_final_tx_without_signable_fails :
    envFinalTx.createActionResult.tx = some [9] ∧
    envFinalTx.createActionResult.signableTransaction = none ∧
    (updateToken envFinalTx tokWithBeef "new").2 = Except.error Err.signingError ∧
    (updateToken envFinalTx tokWithBeef "new").1.any Event.isBroadcastCall = false := by
  exact ⟨rfl, rfl, rfl, rfl⟩

/-- Claim C2 as amended: updateToken always requires a signable transaction
from createAction; when none is returned, even if a finalized transaction
is, it fails with SigningError without broadcasting; when one is returned
the external signing phase for input 0 always runs, SigningError is raised
when finalization yields no transaction, and broadcast happens when it
does. -/
theorem updateToken_signing_phase (w : Env) (tok : HelloWorldToken) (msg : String)
    (b : List Nat) (hb : tok.token.beef = some b) :
    (w.createActionResult.signableTransaction = none →
        (updateToken w tok msg).2 = Except.error Err.signingError ∧
        (updateToken w tok msg).1.any Event.isBroadcastCall = false) ∧
    (∀ st, w.createActionResult.signableTransaction = some st →
        Event.unlockSign st.tx 0 ∈ (updateToken w tok msg).1 ∧
        (w.signActionResult = none →
            (updateToken w tok msg).2 = Except.error Err.signingError) ∧
        (∀ tx, w.signActionResult = some tx →
            (updateToken w tok msg).1.any Event.isBroadcastCall = true)) := by
  unfold updateToken
  rw [hb]
  dsimp only
  cases hs : w.createActionResult.signableTransaction with
  | none =>
    refine ⟨fun _ => ⟨rfl, rfl⟩, ?_⟩
    intro st hst
    cases hst
  | some st0 =>
    refine ⟨?_, ?_⟩
    · intro hc
      cases hc
    · intro st hst
      injection hst with hst2
      subst hst2
      cases hsa : w.signActionResult with
      | none =>
        refine ⟨by simp, fun _ => rfl, ?_⟩
        intro tx htx
        cases htx
      | some tx0 =>
        refine ⟨by simp, ?_, fun tx htx => rfl⟩
        intro hc
        cases hc

/-- Witness for the amended claim C2: with a signable transaction returned
and finalization failing, the unlock sign phase runs and SigningError is
raised. -/
theorem updateToken_signing_phase_witness :
    tokWithBeef.token.beef = some [1, 2] ∧
    Event.unlockSign [3] 0 ∈ (updateToken envSignable tokWithBeef "n").1 ∧
    (updateToken envSignable tokWithBeef "n").2 = Except.error Err.signingError :=
  ⟨rfl,
   ((updateToken_signing_phase envSignable tokWithBeef "n" [1, 2] rfl).2
      { tx := [3], reference := "r" } rfl).1,
   ((updateToken_signing_phase envSignable tokWithBeef "n" [1, 2] rfl).2
      { tx := [3], reference := "r" } rfl).2.1 rfl⟩
